import Mathlib

/-!
Verification development for the session-scoped RAG engine and interview
controller of the backend under study.

The Python sources are shallowly embedded as executable Lean definitions:
  - the interview state machine from backend/app/services/interview_logic.py
    (determine_next_question_type, the state-updating part of
    generate_question, get_feedback with the language model as an oracle
    parameter);
  - the repository ingestion pipeline from
    backend/app/services/github_logic.py (extension dispatch, empty-corpus
    check, persistence into a session-keyed store);
  - the chat pipeline from backend/app/api/chatbot.py together with
    backend/app/services/chatbot_logic.py (session lookup and ownership
    check, memory reconstruction, commit-after-answer);
  - the interview endpoints from backend/app/api/interview.py (session
    authorization, cleanup).

External collaborators (the language model, the embedding index, the git
clone) are modelled as explicit parameters or as spec-modelled functions,
marked as such in their doc comments.  Prompt strings are abridged to
apostrophe-free equivalents; only their distinctness matters to any theorem
below.
-/

namespace Spec2Proof

/-! ### Interview state machine: data model (interview_logic.py / interview.py) -/

/-- The four fixed interview sections, in the priority order used by
`determine_next_question_type`. -/
inductive Sect
  | introduction
  | skills
  | projects
  | experience
deriving DecidableEq, Repr

/-- The string key of the section, as used in the Python dictionaries. -/
def Sect.sname : Sect → String
  | .introduction => "introduction"
  | .skills => "skills"
  | .projects => "projects"
  | .experience => "experience"

/-- The value of the sections_covered dictionary of a session:
one covered flag per section. -/
structure SectionsCovered where
  introduction : Bool
  skills : Bool
  projects : Bool
  experience : Bool
deriving DecidableEq, Repr

def SectionsCovered.get (c : SectionsCovered) : Sect → Bool
  | .introduction => c.introduction
  | .skills => c.skills
  | .projects => c.projects
  | .experience => c.experience

def SectionsCovered.set (c : SectionsCovered) : Sect → Bool → SectionsCovered
  | .introduction, b => { c with introduction := b }
  | .skills, b => { c with skills := b }
  | .projects, b => { c with projects := b }
  | .experience, b => { c with experience := b }

/-- The value of the section_questions_asked dictionary of a session:
one question counter per section. -/
structure SectionCounts where
  introduction : Nat
  skills : Nat
  projects : Nat
  experience : Nat
deriving DecidableEq, Repr

def SectionCounts.get (c : SectionCounts) : Sect → Nat
  | .introduction => c.introduction
  | .skills => c.skills
  | .projects => c.projects
  | .experience => c.experience

def SectionCounts.set (c : SectionCounts) : Sect → Nat → SectionCounts
  | .introduction, n => { c with introduction := n }
  | .skills, n => { c with skills := n }
  | .projects, n => { c with projects := n }
  | .experience, n => { c with experience := n }

/-- Role tag of a conversation history entry (the strings used in the code
are the lowercase names). -/
inductive Role
  | user
  | ai
deriving DecidableEq, Repr

/-- The process-resident interview session record stored in
active_sessions (backend/app/api/interview.py, upload_resume_endpoint).
The db_session_id and chroma_db_path fields are irrelevant to the state
machine and omitted; the chroma index is a parameter where needed. -/
structure SessionData where
  conversation_history : List (Role × String)
  sections_covered : SectionsCovered
  section_questions_asked : SectionCounts
  max_questions_per_section : Nat
deriving DecidableEq, Repr

/-- interview_logic.determine_next_question_type, embedded line by line. -/
def determine_next_question_type (session_data : SessionData) : String :=
  if !session_data.sections_covered.introduction then "introduction"
  else if !session_data.sections_covered.skills then "skills"
  else if !session_data.sections_covered.projects then "projects"
  else if !session_data.sections_covered.experience then "experience"
  else "feedback_stage"

/-! Spec-side description of the transition rule, used to compare the
source embedding with the words of the design document. -/

/-- The fixed priority order of the sections, as stated in the spec. -/
def priorityOrder : List Sect := [.introduction, .skills, .projects, .experience]

/-- Spec-side reading of the transition rule: scan the sections in the
fixed priority order, return the first not-yet-covered section name, and
return feedback_stage when all four are covered. -/
def firstUncoveredSpec (c : SectionsCovered) : String :=
  match priorityOrder.find? (fun sec => !(c.get sec)) with
  | some sec => sec.sname
  | none => "feedback_stage"

/-- Concrete example state of the spec: introduction covered, everything
else not. -/
def exCovered : SectionsCovered :=
  { introduction := true, skills := false, projects := false, experience := false }

/-- A concrete session state carrying `exCovered` and nonzero, unequal
question counters, to exhibit independence from the counters. -/
def exState : SessionData :=
  { conversation_history := [(Role.ai, "Q1"), (Role.user, "A1")]
    sections_covered := exCovered
    section_questions_asked := { introduction := 2, skills := 1, projects := 3, experience := 7 }
    max_questions_per_section := 2 }

/-! ### Structured model output (pydantic models and parsers) -/

/-- A JSON value, the shape of the raw structured output of the language
model after JSON decoding.  Only the constructors needed by the pydantic
schemas appear. -/
inductive JsonVal
  | jnull
  | jbool (b : Bool)
  | jint (n : Int)
  | jstr (s : String)
  | jarr (elems : List JsonVal)
  | jobj (fields : List (String × JsonVal))

/-- Field lookup on a JSON object. -/
def JsonVal.getField (j : JsonVal) (key : String) : Option JsonVal :=
  match j with
  | .jobj fields => fields.lookup key
  | _ => none

/-- Validation of an int-typed pydantic field: accepts any integer, with
no range constraint (none is declared in the source models). -/
def JsonVal.asInt : JsonVal → Option Int
  | .jint n => some n
  | _ => none

def JsonVal.asString : JsonVal → Option String
  | .jstr s => some s
  | _ => none

/-- Element-wise validation of a JSON array of strings. -/
def JsonVal.allStrings : List JsonVal → Option (List String)
  | [] => some []
  | x :: rest =>
    match x.asString, JsonVal.allStrings rest with
    | some s, some ss => some (s :: ss)
    | _, _ => none

/-- Validation of a pydantic field of type list of strings: accepts any
list whose elements are all strings, including the empty list (no
non-emptiness constraint is declared in the source models). -/
def JsonVal.asStringList : JsonVal → Option (List String)
  | .jarr elems => JsonVal.allStrings elems
  | _ => none

/-- interview_logic.TechnicalFeedback: the pydantic model declares a plain
int rating and a plain list of string tips. -/
structure TechnicalFeedback where
  technical_knowledge_rating : Int
  technical_tips : List String
deriving DecidableEq, Repr

/-- interview_logic.HRFeedback. -/
structure HRFeedback where
  communication_skills_rating : Int
  communication_tips : List String
deriving DecidableEq, Repr

/-- interview_logic.InterviewQuestion. -/
structure InterviewQuestion where
  question : String
deriving DecidableEq, Repr

/-- PydanticOutputParser for InterviewQuestion: requires a question field
holding a string; anything else is a schema-validation failure. -/
def parseInterviewQuestion (j : JsonVal) : Option InterviewQuestion :=
  match (j.getField "question").bind JsonVal.asString with
  | some q => some { question := q }
  | none => none

/-- PydanticOutputParser for TechnicalFeedback: requires an integer
rating field and a list-of-strings tips field; no further constraint. -/
def parseTechnicalFeedback (j : JsonVal) : Option TechnicalFeedback :=
  match (j.getField "technical_knowledge_rating").bind JsonVal.asInt,
        (j.getField "technical_tips").bind JsonVal.asStringList with
  | some r, some tips => some { technical_knowledge_rating := r, technical_tips := tips }
  | _, _ => none

/-- PydanticOutputParser for HRFeedback. -/
def parseHRFeedback (j : JsonVal) : Option HRFeedback :=
  match (j.getField "communication_skills_rating").bind JsonVal.asInt,
        (j.getField "communication_tips").bind JsonVal.asStringList with
  | some r, some tips => some { communication_skills_rating := r, communication_tips := tips }
  | _, _ => none

/-! ### Errors -/

/-- The error taxonomy of the design, covering the failures the embedded
operations can raise. -/
inductive AppError
  | emptyCorpus
  | sessionNotFound
  | generationFailed
  | cloneFailed
  | extractionFailed
deriving DecidableEq, Repr

/-! ### generate_question and get_feedback (interview_logic.py) -/

/-- The question prompt of generate_question, abridged to an
apostrophe-free string; the theorems below depend only on its
functional dependence on its inputs. -/
def questionPromptText (question_type context user_answer_prev : String) : String :=
  "You are an AI assistant that ONLY responds with a valid JSON object. " ++
  "Your response must conform to the InterviewQuestion schema. " ++
  "Now, based on the context below, generate one interview question. " ++
  "Question Type: " ++ question_type ++
  " Resume Context: " ++ context ++
  " Candidate Previous Answer: " ++ user_answer_prev

/-- The first two statements of interview_logic.generate_question
(lines 117 to 119): increment the question counter of the section and,
if the counter now reaches the configured maximum, mark the section
covered.  In the source this mutation happens before the model call. -/
def gq_bump (session_data : SessionData) (question_type : Sect) : SessionData :=
  let counts := session_data.section_questions_asked.set question_type
      (session_data.section_questions_asked.get question_type + 1)
  let covered :=
    if session_data.max_questions_per_section ≤ counts.get question_type then
      session_data.sections_covered.set question_type true
    else session_data.sections_covered
  { session_data with section_questions_asked := counts, sections_covered := covered }

/-- The chain prompt | llm | question_parser of generate_question: build
the prompt from the retrieved context, invoke the model, validate the raw
output against the InterviewQuestion schema.  A model failure or a
schema-validation failure is a generation failure. -/
def gq_llm (get_context : String → String) (oracle : String → Except AppError JsonVal)
    (question_type : Sect) (user_answer_prev : String) : Except AppError String :=
  let context := get_context ("candidate " ++ question_type.sname)
  match oracle (questionPromptText question_type.sname context user_answer_prev) with
  | .error e => .error e
  | .ok j =>
    match parseInterviewQuestion j with
    | none => .error .generationFailed
    | some resp => .ok resp.question

/-- interview_logic.generate_question, embedded with the similarity
search over the chroma index (get_context) and the language model
(oracle) as explicit parameters.  As in the source, the question counter
is incremented and the covered flag possibly set BEFORE the model call;
the history is appended only on a successful, schema-valid response.
The mutated session record is returned alongside the outcome. -/
def generate_question
    (get_context : String → String)
    (oracle : String → Except AppError JsonVal)
    (session_data : SessionData) (question_type : Sect) (user_answer_prev : String) :
    SessionData × Except AppError String :=
  let s1 := gq_bump session_data question_type
  match gq_llm get_context oracle question_type user_answer_prev with
  | .error e => (s1, .error e)
  | .ok q =>
    ({ s1 with conversation_history := s1.conversation_history ++ [(Role.ai, q)] }, .ok q)

/-- The state effect of submit_answer_endpoint before the next question is
generated: the user answer is appended to the conversation history
(interview.py line 81); covered flags and counters are untouched. -/
def submit_answer_state (session_data : SessionData) (user_answer : String) : SessionData :=
  { session_data with
    conversation_history := session_data.conversation_history ++ [(Role.user, user_answer)] }

/-- Iterated calls of generate_question for one fixed section, one call
per entry of the previous-answers list. -/
def genCalls (get_context : String → String) (oracle : String → Except AppError JsonVal) :
    SessionData → Sect → List String → SessionData
  | s, _, [] => s
  | s, sec, ans :: rest =>
      genCalls get_context oracle (generate_question get_context oracle s sec ans).1 sec rest

/-- interview_logic.get_feedback, transcript serialization: each history
entry is rendered as the uppercased role, a colon and the text, joined by
newlines. -/
def Role.upperName : Role → String
  | .user => "USER"
  | .ai => "AI"

def full_conversation (session_data : SessionData) : String :=
  String.intercalate "\n"
    (session_data.conversation_history.map (fun p => p.1.upperName ++ ": " ++ p.2))

/-- The technical-feedback prompt of get_feedback, abridged. -/
def techPromptText (conversation : String) : String :=
  "You are an AI assistant that ONLY responds with a valid JSON object. " ++
  "Your response must conform to the TechnicalFeedback schema. " ++
  "Now, analyze the following conversation and provide technical feedback. " ++
  "Conversation: " ++ conversation

/-- The HR-feedback prompt of get_feedback, abridged. -/
def hrPromptText (conversation : String) : String :=
  "You are an AI assistant that ONLY responds with a valid JSON object. " ++
  "Your response must conform to the HRFeedback schema. " ++
  "Now, analyze the following conversation and provide HR feedback. " ++
  "Conversation: " ++ conversation

/-- interview_logic.get_feedback with the language model as an oracle
parameter: serialize the conversation, run the technical chain (model
call then schema validation), then the HR chain, and return both
objects.  A model failure or a schema-validation failure at either chain
aborts the whole operation, exactly as an exception would in the
source. -/
def get_feedback (oracle : String → Except AppError JsonVal) (session_data : SessionData) :
    Except AppError (TechnicalFeedback × HRFeedback) :=
  let conversation := full_conversation session_data
  match oracle (techPromptText conversation) with
  | .error e => .error e
  | .ok tj =>
    match parseTechnicalFeedback tj with
    | none => .error .generationFailed
    | some technical_feedback =>
      match oracle (hrPromptText conversation) with
      | .error e => .error e
      | .ok hj =>
        match parseHRFeedback hj with
        | none => .error .generationFailed
        | some hr_feedback => .ok (technical_feedback, hr_feedback)

/-! ### String helpers (kernel-computable models of the Python string
methods used by the sources) -/

/-- Model of str.lower (ASCII case folding suffices for extensions). -/
def strToLower (s : String) : String := String.mk (s.toList.map Char.toLower)

/-- Model of str.endswith. -/
def strEndsWith (s suffix : String) : Bool := suffix.toList.isSuffixOf s.toList

/-- Model of str.startswith. -/
def strStartsWith (s pre : String) : Bool := pre.toList.isPrefixOf s.toList

/-- The basename of a path: the part after the last slash. -/
def lastComponent (cs : List Char) : List Char :=
  (cs.reverse.takeWhile (fun c => !(c == '/'))).reverse

/-- Model of os.path.splitext(path)[1]: the extension of the basename,
from its last dot, where the leading dots of a dotfile do not start an
extension. -/
def splitext_ext (path : String) : String :=
  let base := lastComponent path.toList
  let stripped := base.dropWhile (fun c => c == '.')
  if stripped.contains '.' then
    String.mk ('.' :: (stripped.reverse.takeWhile (fun c => !(c == '.'))).reverse)
  else ""

/-- os.path.splitext(file_path)[1].lower(), as used in
github_logic.process_github_repo. -/
def file_extension (path : String) : String := strToLower (splitext_ext path)

/-! ### Repository ingestion (github_logic.py, and clone_and_process_repo
of interview_logic.py) -/

/-- One file of a repository checkout: its relative path, its content and
whether it is a text-bearing file (as opposed to binary data). -/
structure RepoFile where
  file_path : String
  content : String
  is_text : Bool
deriving DecidableEq, Repr

/-- A repository at a clone URL: the set of branch names it serves and
the files of its checkout. -/
structure Repo where
  branches : List String
  files : List RepoFile
deriving DecidableEq, Repr

/-- An extracted source unit: content plus the provenance metadata the
loader attaches (the relative file path). -/
structure Document where
  page_content : String
  file_path : String
deriving DecidableEq, Repr

/-- A chunk: a bounded text segment inheriting the provenance of its
source unit. -/
structure Chunk where
  page_content : String
  file_path : String
deriving DecidableEq, Repr

/-- Modelled from the spec (§4.1): the GitLoader collaborator (library
code, not part of this repository) clones the requested branch and
yields one document per text-bearing file, tagged with its relative
path; binary and non-text files are skipped.  Cloning a branch the
repository does not have fails. -/
def gitLoader_load (branch : String) (repo : Repo) : Except AppError (List Document) :=
  if repo.branches.contains branch then
    .ok ((repo.files.filter (fun f => f.is_text)).map
      (fun f => { page_content := f.content, file_path := f.file_path }))
  else .error .cloneFailed

/-- Modelled from the spec (§4.2): the RecursiveCharacterTextSplitter
collaborator (library code, not part of this repository) cuts a
character list into chunks of at most 1000 characters with an overlap of
200 (step 800), preserving order; the boundary refinements of the
language-aware splitters are abstracted away, which preserves the
chunk-count and emptiness behavior every theorem below relies on. -/
def splitCoreFuel : Nat → List Char → List (List Char)
  | _, [] => []
  | 0, l => [l]
  | fuel + 1, l =>
    if l.length ≤ 1000 then [l]
    else l.take 1000 :: splitCoreFuel fuel (l.drop 800)

/-- split_text of the splitter collaborator: an empty text yields no
chunks, a non-empty text yields at least one. -/
def split_text (s : String) : List String :=
  (splitCoreFuel s.toList.length s.toList).map (fun cs => String.mk cs)

/-- split_documents on a single document: split its content, every chunk
inheriting the provenance of the document. -/
def splitDocument (doc : Document) : List Chunk :=
  (split_text doc.page_content).map (fun c => { page_content := c, file_path := doc.file_path })

/-- The extensions process_github_repo dispatches on: python, js/ts,
markdown, and the generic text whitelist. -/
def githubExts : List String :=
  [".py", ".js", ".ts", ".md", ".txt", ".json", ".yml", ".yaml", ".html", ".css"]

/-- The loop body of github_logic.process_github_repo (lines 53 to 68):
dispatch on the lowercased extension; every recognized branch feeds the
document to its splitter, any other file leaves chunks empty and is
dropped. -/
def chunk_document (doc : Document) : List Chunk :=
  let ext := file_extension doc.file_path
  if ext == ".py" then splitDocument doc
  else if ext == ".js" || ext == ".ts" then splitDocument doc
  else if ext == ".md" then splitDocument doc
  else if [".txt", ".json", ".yml", ".yaml", ".html", ".css"].contains ext then
    splitDocument doc
  else []

/-- The persisted chroma stores, keyed by persist directory: the
filesystem state under CHROMA_PERSIST_DIR plus the interview temp
directories. -/
abbrev ChromaStore := List (String × List Chunk)

def CHROMA_PERSIST_DIR : String := "chroma_db_storage"

/-- os.path.join(CHROMA_PERSIST_DIR, session_id). -/
def sessionPersistDir (session_id : String) : String :=
  CHROMA_PERSIST_DIR ++ "/" ++ session_id

/-- github_logic.process_github_repo: clone branch main (hardcoded),
chunk each loaded document by extension, fail with the empty-corpus
error when no chunks were produced (before anything is persisted), else
persist the chunks under the session's storage key.  The resulting store
is returned alongside the outcome. -/
def process_github_repo (repo : Repo) (session_id : String) (store : ChromaStore) :
    ChromaStore × Except AppError Unit :=
  match gitLoader_load "main" repo with
  | .error e => (store, .error e)
  | .ok documents =>
    let processed_docs := documents.flatMap chunk_document
    if processed_docs.isEmpty then (store, .error .emptyCorpus)
    else ((sessionPersistDir session_id, processed_docs) :: store, .ok ())

/-- interview_logic.clone_and_process_repo: clone branch main
(hardcoded), keep only the documents whose file path ends with .py and
split those with the python splitter; everything else is dropped. -/
def clone_and_process_repo (repo : Repo) : Except AppError (List Chunk) :=
  match gitLoader_load "main" repo with
  | .error e => .error e
  | .ok docs =>
    .ok (docs.flatMap (fun doc =>
      if strEndsWith doc.file_path ".py" then splitDocument doc else []))

/-! ### Chat pipeline (chatbot_logic.py and api/chatbot.py) -/

/-- chatbot_logic.get_retriever_for_session: fail with the
session-not-found error when nothing is persisted at the storage
location derived from the session id, else return a retriever over the
persisted chunks. -/
def get_retriever_for_session (store : ChromaStore) (session_id : String) :
    Except AppError (List Chunk) :=
  match store.lookup (sessionPersistDir session_id) with
  | none => .error .sessionNotFound
  | some chunks => .ok chunks

/-- Index deletion (shutil.rmtree of a persist directory): every entry at
that path is removed. -/
def delete_index (store : ChromaStore) (path : String) : ChromaStore :=
  store.filter (fun entry => !(entry.1 == path))

/-- A row of the chat_messages table, in creation order within the
list. -/
structure ChatMessageRow where
  session_id : String
  user_message : String
  ai_response : String
deriving DecidableEq, Repr

/-- A row of the chat_sessions table. -/
structure ChatSessionRow where
  id : String
  user_id : Nat
deriving DecidableEq, Repr

/-- A message of the reconstructed ConversationBufferMemory. -/
inductive MemMsg
  | human (content : String)
  | ai (content : String)
deriving DecidableEq, Repr

/-- chat_endpoint lines 127 to 137: load all persisted turns of the
session in creation order and replay each as a user message followed by
an AI message into a fresh memory buffer. -/
def reconstructMemory (messages : List ChatMessageRow) (session_id : String) : List MemMsg :=
  (messages.filter (fun m => m.session_id == session_id)).flatMap
    (fun m => [MemMsg.human m.user_message, MemMsg.ai m.ai_response])

/-- An HTTPException outcome: status code and detail string. -/
structure HTTPError where
  status : Nat
  detail : String
deriving DecidableEq, Repr

def chatNotFoundDetail : String :=
  "Session not found or you do not have permission to access it."

def interviewNotFoundDetail : String :=
  "Active interview session not found or unauthorized."

/-- The name the error renders as inside the 500 detail string. -/
def AppError.describe : AppError → String
  | .emptyCorpus => "EmptyCorpus"
  | .sessionNotFound => "SessionNotFound"
  | .generationFailed => "GenerationFailed"
  | .cloneFailed => "CloneFailed"
  | .extractionFailed => "ExtractionFailed"

/-- The per-call timeout budget configured on every ChatOpenAI client of
the sources (request_timeout=60). -/
def request_timeout : Nat := 60

/-- api/chatbot.chat_endpoint with the conversational retrieval chain as
an explicit parameter (retrieved chunks, reconstructed memory and the
new question to an answer or a failure).  Mirrors the source: session
lookup and ownership check (404 on either failure), retriever opening,
memory reconstruction, chain invocation; the new turn is committed to
the durable store only after a successful answer, and every failure
rolls back, leaving the store unchanged.  Returns the outcome and the
resulting message table. -/
def chat_endpoint
    (chain : List Chunk → List MemMsg → String → Except AppError String)
    (store : ChromaStore)
    (sessions : List ChatSessionRow) (messages : List ChatMessageRow)
    (current_user_id : Nat) (req_session_id req_message : String) :
    Except HTTPError String × List ChatMessageRow :=
  match sessions.find? (fun srow => srow.id == req_session_id) with
  | none => (.error { status := 404, detail := chatNotFoundDetail }, messages)
  | some srow =>
    if srow.user_id ≠ current_user_id then
      (.error { status := 404, detail := chatNotFoundDetail }, messages)
    else
      match get_retriever_for_session store req_session_id with
      | .error e =>
        (.error { status := 500, detail := "Error during chat: " ++ e.describe }, messages)
      | .ok retriever =>
        let memory := reconstructMemory messages req_session_id
        match chain retriever memory req_message with
        | .error e =>
          (.error { status := 500, detail := "Error during chat: " ++ e.describe }, messages)
        | .ok ai_response =>
          (.ok ai_response,
           messages ++ [{ session_id := req_session_id, user_message := req_message,
                          ai_response := ai_response }])

/-- The session authorization of the interview endpoints
(start_interview, submit_answer, get_feedback): look the token up in the
process-resident active_sessions map and require the token to start with
the caller's user id followed by an underscore; both a missing token and
an ownership mismatch raise the same 404 detail. -/
def interview_session_auth (active_sessions : List (String × SessionData))
    (current_user_id : Nat) (interview_session_id : String) :
    Except HTTPError SessionData :=
  match active_sessions.lookup interview_session_id with
  | none => .error { status := 404, detail := interviewNotFoundDetail }
  | some session_data =>
    if strStartsWith interview_session_id (toString current_user_id ++ "_") then
      .ok session_data
    else .error { status := 404, detail := interviewNotFoundDetail }

/-! ### Concrete fixtures for witnesses and counterexamples -/

/-- A context-retrieval stub. -/
def ctxStub : String → String := fun _ => ""

/-- A model oracle that always returns one schema-valid question object. -/
def okQuestionOracle : String → Except AppError JsonVal :=
  fun _ => .ok (.jobj [("question", .jstr "Q")])

/-- The interview session record as initialized by upload_resume_endpoint
(interview.py lines 47 to 54): empty history, nothing covered, zero
counters, maximum 2 questions per section. -/
def freshSessionData : SessionData :=
  { conversation_history := []
    sections_covered :=
      { introduction := false, skills := false, projects := false, experience := false }
    section_questions_asked :=
      { introduction := 0, skills := 0, projects := 0, experience := 0 }
    max_questions_per_section := 2 }

/-- The state after the introduction section of the full run. -/
def runAfterIntro : SessionData :=
  genCalls ctxStub okQuestionOracle freshSessionData .introduction ["", "a1"]

/-- ... after the skills section. -/
def runAfterSkills : SessionData :=
  genCalls ctxStub okQuestionOracle runAfterIntro .skills ["a2", "a3"]

/-- ... after the projects section. -/
def runAfterProjects : SessionData :=
  genCalls ctxStub okQuestionOracle runAfterSkills .projects ["a4", "a5"]

/-- The state after a full interview run: 2 questions in each of the 4
sections, 8 generate_question calls in the order chosen by
determine_next_question_type. -/
def fullRunState : SessionData :=
  genCalls ctxStub okQuestionOracle runAfterProjects .experience ["a6", "a7"]

/-- A schema-valid model output for both feedback parsers whose rating is
0 and whose tip lists are empty. -/
def badFeedbackJson : JsonVal :=
  .jobj [("technical_knowledge_rating", .jint 0), ("technical_tips", .jarr []),
         ("communication_skills_rating", .jint 0), ("communication_tips", .jarr [])]

/-- An oracle answering every feedback prompt with `badFeedbackJson`. -/
def badFeedbackOracle : String → Except AppError JsonVal := fun _ => .ok badFeedbackJson

def badTechnicalFeedback : TechnicalFeedback :=
  { technical_knowledge_rating := 0, technical_tips := [] }

def badHRFeedback : HRFeedback :=
  { communication_skills_rating := 0, communication_tips := [] }

/-- A schema-valid model output with in-range ratings and non-empty tips. -/
def goodFeedbackJson : JsonVal :=
  .jobj [("technical_knowledge_rating", .jint 4), ("technical_tips", .jarr [.jstr "tip"]),
         ("communication_skills_rating", .jint 5), ("communication_tips", .jarr [.jstr "talk"])]

/-- An oracle answering every feedback prompt with `goodFeedbackJson`. -/
def goodFeedbackOracle : String → Except AppError JsonVal := fun _ => .ok goodFeedbackJson

def goodTechnicalFeedback : TechnicalFeedback :=
  { technical_knowledge_rating := 4, technical_tips := ["tip"] }

def goodHRFeedback : HRFeedback :=
  { communication_skills_rating := 5, communication_tips := ["talk"] }

/-- A repository on branch main containing only a binary file. -/
def binaryOnlyRepo : Repo :=
  { branches := ["main"]
    files := [{ file_path := "logo.png", content := "PNGDATA", is_text := false }] }

/-- A repository on branch main whose only file is a non-empty
text-bearing Rust source, an extension outside the dispatch whitelist. -/
def rustRepo : Repo :=
  { branches := ["main"]
    files := [{ file_path := "src/lib.rs", content := "pub fn add of a and b", is_text := true }] }

/-- The document gitLoader_load yields for the Rust file of rustRepo. -/
def rustDoc : Document := { page_content := "pub fn add of a and b", file_path := "src/lib.rs" }

/-- A repository on branch main whose only file is a non-empty markdown
file. -/
def mdOnlyRepo : Repo :=
  { branches := ["main"]
    files := [{ file_path := "README.md", content := "readme text", is_text := true }] }

/-- A repository on branch main with a python file. -/
def pyRepo : Repo :=
  { branches := ["main"]
    files := [{ file_path := "app.py", content := "def f of x returns 1", is_text := true }] }

/-- The document gitLoader_load yields for the python file of pyRepo. -/
def pyDoc : Document := { page_content := "def f of x returns 1", file_path := "app.py" }

/-- A repository whose only branch is master (no branch named main),
holding a processable python file. -/
def masterOnlyRepo : Repo :=
  { branches := ["master"]
    files := [{ file_path := "app.py", content := "def g of y returns 2", is_text := true }] }

/-- A sample persisted chunk. -/
def sampleChunk : Chunk := { page_content := "hello world", file_path := "doc.txt" }

/-- A store holding one index for session s6. -/
def store6 : ChromaStore := [(sessionPersistDir "s6", [sampleChunk])]

/-- A chat sessions table with one session s7 owned by user 42. -/
def sessions7 : List ChatSessionRow := [{ id := "s7", user_id := 42 }]

/-- A store holding the index of session s7. -/
def store7 : ChromaStore := [(sessionPersistDir "s7", [sampleChunk])]

/-- A chain that always fails like a timed-out or rate-limited model
call. -/
def failChain : List Chunk → List MemMsg → String → Except AppError String :=
  fun _ _ _ => .error .generationFailed

/-- A chain that always answers. -/
def okChain : List Chunk → List MemMsg → String → Except AppError String :=
  fun _ _ _ => .ok "ans"

/-- A chain that inspects the memory it is given. -/
def memProbeChain : List Chunk → List MemMsg → String → Except AppError String :=
  fun _ memory _ => if memory.isEmpty then .ok "ans" else .ok "other"

/-- A message table whose only row belongs to a different session. -/
def otherSessionMessages : List ChatMessageRow :=
  [{ session_id := "elsewhere", user_message := "u", ai_response := "a" }]

/-- A chat sessions table with one session named other, owned by user 7. -/
def sessions9 : List ChatSessionRow := [{ id := "other", user_id := 7 }]

/-- An active interview session map holding one token of user 7. -/
def active9 : List (String × SessionData) := [("7_20240101", freshSessionData)]

/-- C1: `determine_next_question_type` agrees with the priority-order scan
of the spec, is a pure function of the sections_covered map alone, and on
the concrete covered-map of the claim returns the string skills. -/
theorem C1_determine_next_question_type_scan :
    (∀ s : SessionData, determine_next_question_type s = firstUncoveredSpec s.sections_covered) ∧
    (∀ s t : SessionData, s.sections_covered = t.sections_covered →
      determine_next_question_type s = determine_next_question_type t) ∧
    (∀ s : SessionData, s.sections_covered = exCovered →
      determine_next_question_type s = "skills") := by
  refine ⟨?_, ?_, ?_⟩
  · rintro ⟨h, ⟨a, b, c, d⟩, q, m⟩
    cases a <;> cases b <;> cases c <;> cases d <;> rfl
  · rintro ⟨h₁, c₁, q₁, m₁⟩ ⟨h₂, c₂, q₂, m₂⟩ hc
    simp only at hc
    simp [determine_next_question_type, hc]
  · rintro ⟨h, c, q, m⟩ hc
    simp only at hc
    subst hc
    rfl

/-- Closed instantiation of C1 at the concrete state `exState`. -/
theorem C1_witness : determine_next_question_type exState = "skills" :=
  C1_determine_next_question_type_scan.2.2 exState rfl

/-! ### Helper lemmas about the covered map, the counters and gq_bump -/

theorem covered_get_set_self (c : SectionsCovered) (sec : Sect) (b : Bool) :
    (c.set sec b).get sec = b := by
  cases sec <;> rfl

theorem covered_get_set_true_mono (c : SectionsCovered) (sec x : Sect)
    (h : c.get x = true) : (c.set sec true).get x = true := by
  cases sec <;> cases x <;> simp_all [SectionsCovered.get, SectionsCovered.set]

theorem counts_get_set_self (c : SectionCounts) (sec : Sect) (n : Nat) :
    (c.set sec n).get sec = n := by
  cases sec <;> rfl

theorem gq_bump_counts_self (s : SessionData) (sec : Sect) :
    (gq_bump s sec).section_questions_asked.get sec =
      s.section_questions_asked.get sec + 1 := by
  simp [gq_bump, counts_get_set_self]

theorem gq_bump_max (s : SessionData) (sec : Sect) :
    (gq_bump s sec).max_questions_per_section = s.max_questions_per_section := rfl

theorem gq_bump_history (s : SessionData) (sec : Sect) :
    (gq_bump s sec).conversation_history = s.conversation_history := rfl

theorem gq_bump_covered_of_reach (s : SessionData) (sec : Sect)
    (h : s.max_questions_per_section ≤ s.section_questions_asked.get sec + 1) :
    (gq_bump s sec).sections_covered.get sec = true := by
  simp only [gq_bump, counts_get_set_self]
  rw [if_pos (by simpa [counts_get_set_self] using h)]
  exact covered_get_set_self _ _ _

theorem gq_bump_covered_of_below (s : SessionData) (sec : Sect)
    (h : s.section_questions_asked.get sec + 1 < s.max_questions_per_section) :
    (gq_bump s sec).sections_covered.get sec = s.sections_covered.get sec := by
  simp only [gq_bump]
  rw [if_neg (by simp [counts_get_set_self]; omega)]

theorem gq_bump_covered_mono (s : SessionData) (sec x : Sect)
    (h : s.sections_covered.get x = true) :
    (gq_bump s sec).sections_covered.get x = true := by
  simp only [gq_bump]
  split
  · exact covered_get_set_true_mono _ _ _ h
  · exact h

/-- The counters, covered flags and maximum of the state returned by
generate_question equal those of gq_bump, whatever the model does. -/
theorem generate_question_fst_fields (gc : String → String)
    (o : String → Except AppError JsonVal) (s : SessionData) (sec : Sect) (a : String) :
    (generate_question gc o s sec a).1.section_questions_asked =
        (gq_bump s sec).section_questions_asked ∧
    (generate_question gc o s sec a).1.sections_covered = (gq_bump s sec).sections_covered ∧
    (generate_question gc o s sec a).1.max_questions_per_section =
        s.max_questions_per_section := by
  cases h : gq_llm gc o sec a <;> simp [generate_question, h, gq_bump_max]

/-! ### genCalls lemmas -/

theorem genCalls_counts (gc : String → String) (o : String → Except AppError JsonVal)
    (sec : Sect) (l : List String) :
    ∀ s : SessionData, (genCalls gc o s sec l).section_questions_asked.get sec =
      s.section_questions_asked.get sec + l.length := by
  induction l with
  | nil => intro s; rfl
  | cons a rest ih =>
    intro s
    have hf := generate_question_fst_fields gc o s sec a
    simp only [genCalls, ih, hf.1, gq_bump_counts_self, List.length_cons]
    omega

theorem genCalls_max (gc : String → String) (o : String → Except AppError JsonVal)
    (sec : Sect) (l : List String) :
    ∀ s : SessionData, (genCalls gc o s sec l).max_questions_per_section =
      s.max_questions_per_section := by
  induction l with
  | nil => intro s; rfl
  | cons a rest ih =>
    intro s
    have hf := generate_question_fst_fields gc o s sec a
    simp only [genCalls, ih, hf.2.2]

theorem genCalls_covered_mono (gc : String → String) (o : String → Except AppError JsonVal)
    (sec x : Sect) (l : List String) :
    ∀ s : SessionData, s.sections_covered.get x = true →
      (genCalls gc o s sec l).sections_covered.get x = true := by
  induction l with
  | nil => intro s h; exact h
  | cons a rest ih =>
    intro s h
    have hf := generate_question_fst_fields gc o s sec a
    exact ih _ (by rw [hf.2.1]; exact gq_bump_covered_mono _ _ _ h)

theorem genCalls_covered_below (gc : String → String) (o : String → Except AppError JsonVal)
    (sec : Sect) (l : List String) :
    ∀ s : SessionData, s.sections_covered.get sec = false →
      s.section_questions_asked.get sec + l.length < s.max_questions_per_section →
      (genCalls gc o s sec l).sections_covered.get sec = false := by
  induction l with
  | nil => intro s h _; exact h
  | cons a rest ih =>
    intro s h hlt
    have hf := generate_question_fst_fields gc o s sec a
    simp only [genCalls]
    apply ih
    · rw [hf.2.1, gq_bump_covered_of_below s sec (by simp at hlt; omega)]
      exact h
    · rw [hf.1, gq_bump_counts_self, hf.2.2]
      simp at hlt
      omega

theorem genCalls_covered_reach (gc : String → String) (o : String → Except AppError JsonVal)
    (sec : Sect) (l : List String) :
    ∀ s : SessionData, l ≠ [] →
      s.max_questions_per_section ≤ s.section_questions_asked.get sec + l.length →
      (genCalls gc o s sec l).sections_covered.get sec = true := by
  induction l with
  | nil => intro s h _; exact absurd rfl h
  | cons a rest ih =>
    intro s _ hle
    have hf := generate_question_fst_fields gc o s sec a
    simp only [genCalls]
    by_cases hreach : s.max_questions_per_section ≤ s.section_questions_asked.get sec + 1
    · exact genCalls_covered_mono gc o sec sec rest _
        (by rw [hf.2.1]; exact gq_bump_covered_of_reach s sec hreach)
    · have hrest : rest ≠ [] := by
        rintro rfl
        simp at hle
        omega
      apply ih _ hrest
      rw [hf.1, gq_bump_counts_self, hf.2.2]
      simp at hle
      omega

/-- A covered section is never returned by determine_next_question_type. -/
theorem determine_skips_covered (s : SessionData) (sec : Sect)
    (h : s.sections_covered.get sec = true) :
    determine_next_question_type s ≠ sec.sname := by
  rcases s with ⟨hist, ⟨a, b, c, d⟩, q, m⟩
  cases sec <;> cases a <;> cases b <;> cases c <;> cases d <;>
    simp_all [determine_next_question_type, SectionsCovered.get, Sect.sname]

/-- C2: starting from a section with counter 0 and covered flag false (and
a positive configured maximum), iterated generate_question calls for that
section leave the flag false while fewer than max_questions_per_section
calls have been made, set it exactly at the max-th call, and once any
state has the flag true, determine_next_question_type never returns that
section and no generate_question or submit_answer step ever resets the
flag. -/
theorem C2_section_coverage (gc : String → String) (o : String → Except AppError JsonVal)
    (s : SessionData) (sec : Sect) (answers : List String)
    (h0 : s.section_questions_asked.get sec = 0)
    (hf : s.sections_covered.get sec = false)
    (hm : 0 < s.max_questions_per_section) :
    (answers.length < s.max_questions_per_section →
      (genCalls gc o s sec answers).sections_covered.get sec = false) ∧
    (answers.length = s.max_questions_per_section →
      (genCalls gc o s sec answers).sections_covered.get sec = true) ∧
    (∀ t : SessionData, t.sections_covered.get sec = true →
      determine_next_question_type t ≠ sec.sname ∧
      (∀ gc2 o2 sec2 a2,
        (generate_question gc2 o2 t sec2 a2).1.sections_covered.get sec = true) ∧
      (∀ a2, (submit_answer_state t a2).sections_covered.get sec = true)) := by
  refine ⟨?_, ?_, ?_⟩
  · intro hlt
    exact genCalls_covered_below gc o sec answers s hf (by omega)
  · intro heq
    have hne : answers ≠ [] := by
      rintro rfl
      simp at heq
      omega
    exact genCalls_covered_reach gc o sec answers s hne (by omega)
  · intro t ht
    refine ⟨determine_skips_covered t sec ht, ?_, fun a2 => ht⟩
    intro gc2 o2 sec2 a2
    have hf2 := generate_question_fst_fields gc2 o2 t sec2 a2
    rw [hf2.2.1]
    exact gq_bump_covered_mono _ _ _ ht

/-- Closed instantiation of C2: for the fresh session (max 2), one skills
call leaves the flag false, two set it, and afterwards
determine_next_question_type does not return skills. -/
theorem C2_witness :
    (genCalls ctxStub okQuestionOracle freshSessionData .skills ["x"]).sections_covered.get
        .skills = false ∧
    (genCalls ctxStub okQuestionOracle freshSessionData .skills ["x", "y"]).sections_covered.get
        .skills = true ∧
    determine_next_question_type
        (genCalls ctxStub okQuestionOracle freshSessionData .skills ["x", "y"]) ≠
      Sect.sname .skills := by
  have h := C2_section_coverage ctxStub okQuestionOracle freshSessionData .skills
    ["x", "y"] (by decide) (by decide) (by decide)
  have h1 := C2_section_coverage ctxStub okQuestionOracle freshSessionData .skills
    ["x"] (by decide) (by decide) (by decide)
  have hcov := h.2.1 (by decide)
  exact ⟨h1.1 (by decide), hcov, (h.2.2 _ hcov).1⟩

/-! ### C3: get_feedback and the feedback schemas -/

theorem asStringList_map_jstr (tips : List String) :
    JsonVal.asStringList (.jarr (tips.map .jstr)) = some tips := by
  induction tips with
  | nil => rfl
  | cons t ts ih =>
    simp only [JsonVal.asStringList] at ih
    simp [JsonVal.asStringList, JsonVal.allStrings, JsonVal.asString, ih]

theorem parseTechnicalFeedback_accepts_any (r : Int) (tips : List String) :
    parseTechnicalFeedback
        (.jobj [("technical_knowledge_rating", .jint r),
                ("technical_tips", .jarr (tips.map .jstr))]) =
      some { technical_knowledge_rating := r, technical_tips := tips } := by
  simp [parseTechnicalFeedback, JsonVal.getField, List.lookup, JsonVal.asInt,
    asStringList_map_jstr]

theorem parseHRFeedback_accepts_any (r : Int) (tips : List String) :
    parseHRFeedback
        (.jobj [("communication_skills_rating", .jint r),
                ("communication_tips", .jarr (tips.map .jstr))]) =
      some { communication_skills_rating := r, communication_tips := tips } := by
  simp [parseHRFeedback, JsonVal.getField, List.lookup, JsonVal.asInt,
    asStringList_map_jstr]

/-- C3 counterexample: `fullRunState` is a genuine completed run (the
transition function chose each of its 8 questions and now reports
feedback_stage), yet get_feedback happily returns a technical rating of 0
with empty tip lists, because the pydantic schemas constrain neither the
range of the rating nor the non-emptiness of the tips.  This refutes the
claim that every completed run yields ratings in range 1 to 5 and
non-empty tips. -/
theorem C3_counterexample :
    determine_next_question_type freshSessionData = "introduction" ∧
    determine_next_question_type runAfterIntro = "skills" ∧
    determine_next_question_type runAfterSkills = "projects" ∧
    determine_next_question_type runAfterProjects = "experience" ∧
    determine_next_question_type fullRunState = "feedback_stage" ∧
    get_feedback badFeedbackOracle fullRunState = .ok (badTechnicalFeedback, badHRFeedback) ∧
    badTechnicalFeedback.technical_knowledge_rating < 1 ∧
    badTechnicalFeedback.technical_tips = [] ∧
    badHRFeedback.communication_skills_rating < 1 ∧
    badHRFeedback.communication_tips = [] :=
  ⟨rfl, rfl, rfl, rfl, rfl, rfl, by decide, rfl, by decide, rfl⟩

/-- C3 (amended): whenever get_feedback succeeds it returns exactly the
two schema-validated objects parsed from the two independent model calls
(technical first, HR second, both over the serialized transcript); the
schema guarantees an integer rating and a list of string tips, but
accepts every integer rating and every tip list, including out-of-range
ratings and empty lists. -/
theorem C3_get_feedback_schema (oracle : String → Except AppError JsonVal)
    (s : SessionData) (tf : TechnicalFeedback) (hf : HRFeedback)
    (h : get_feedback oracle s = .ok (tf, hf)) :
    (∃ j, oracle (techPromptText (full_conversation s)) = .ok j ∧
      parseTechnicalFeedback j = some tf) ∧
    (∃ j, oracle (hrPromptText (full_conversation s)) = .ok j ∧
      parseHRFeedback j = some hf) ∧
    (∀ (r : Int) (tips : List String),
      parseTechnicalFeedback
          (.jobj [("technical_knowledge_rating", .jint r),
                  ("technical_tips", .jarr (tips.map .jstr))]) =
        some { technical_knowledge_rating := r, technical_tips := tips }) ∧
    (∀ (r : Int) (tips : List String),
      parseHRFeedback
          (.jobj [("communication_skills_rating", .jint r),
                  ("communication_tips", .jarr (tips.map .jstr))]) =
        some { communication_skills_rating := r, communication_tips := tips }) := by
  refine ⟨?_, ?_, parseTechnicalFeedback_accepts_any, parseHRFeedback_accepts_any⟩ <;>
  · simp only [get_feedback] at h
    cases h1 : oracle (techPromptText (full_conversation s)) with
    | error e => simp only [h1] at h; exact Except.noConfusion h
    | ok tj =>
      simp only [h1] at h
      cases h2 : parseTechnicalFeedback tj with
      | none => simp only [h2] at h; exact Except.noConfusion h
      | some tfv =>
        simp only [h2] at h
        cases h3 : oracle (hrPromptText (full_conversation s)) with
        | error e => simp only [h3] at h; exact Except.noConfusion h
        | ok hj =>
          simp only [h3] at h
          cases h4 : parseHRFeedback hj with
          | none => simp only [h4] at h; exact Except.noConfusion h
          | some hfv =>
            simp only [h4, Except.ok.injEq, Prod.mk.injEq] at h
            first
              | exact ⟨tj, rfl, by rw [h2, h.1]⟩
              | exact ⟨hj, rfl, by rw [h4, h.2]⟩

/-- Closed instantiation of C3 (amended) at the full run with an oracle
producing in-range feedback. -/
theorem C3_witness :
    (∃ j, goodFeedbackOracle (techPromptText (full_conversation fullRunState)) = .ok j ∧
      parseTechnicalFeedback j = some goodTechnicalFeedback) ∧
    (∃ j, goodFeedbackOracle (hrPromptText (full_conversation fullRunState)) = .ok j ∧
      parseHRFeedback j = some goodHRFeedback) ∧
    (∀ (r : Int) (tips : List String),
      parseTechnicalFeedback
          (.jobj [("technical_knowledge_rating", .jint r),
                  ("technical_tips", .jarr (tips.map .jstr))]) =
        some { technical_knowledge_rating := r, technical_tips := tips }) ∧
    (∀ (r : Int) (tips : List String),
      parseHRFeedback
          (.jobj [("communication_skills_rating", .jint r),
                  ("communication_tips", .jarr (tips.map .jstr))]) =
        some { communication_skills_rating := r, communication_tips := tips }) :=
  C3_get_feedback_schema goodFeedbackOracle fullRunState goodTechnicalFeedback goodHRFeedback
    (by rfl)

/-! ### Helper lemmas about the splitter and the extension dispatch -/

theorem splitCoreFuel_ne_nil (fuel : Nat) (l : List Char) (h : l ≠ []) :
    splitCoreFuel fuel l ≠ [] := by
  cases fuel with
  | zero => cases l with
    | nil => exact absurd rfl h
    | cons c cs => simp [splitCoreFuel]
  | succ n =>
    cases l with
    | nil => exact absurd rfl h
    | cons c cs =>
      simp only [splitCoreFuel]
      split <;> simp

theorem split_text_ne_nil (s : String) (h : s ≠ "") : split_text s ≠ [] := by
  rcases s with ⟨data⟩
  have hd : data ≠ [] := by
    intro h0
    exact h (by rw [h0])
  simp only [split_text, ne_eq, List.map_eq_nil_iff]
  exact splitCoreFuel_ne_nil _ _ hd

theorem splitDocument_ne_nil (doc : Document) (h : doc.page_content ≠ "") :
    splitDocument doc ≠ [] := by
  simp only [splitDocument, ne_eq, List.map_eq_nil_iff]
  exact split_text_ne_nil _ h

theorem splitDocument_provenance (doc : Document) :
    ∀ c ∈ splitDocument doc, c.file_path = doc.file_path := by
  intro c hc
  simp only [splitDocument, List.mem_map] at hc
  obtain ⟨t, _, rfl⟩ := hc
  rfl

/-- The extension dispatch of process_github_repo, collapsed: a document
is chunked iff its lowercased extension is on the whitelist. -/
theorem chunk_document_eq (doc : Document) :
    chunk_document doc =
      if githubExts.contains (file_extension doc.file_path) then splitDocument doc
      else [] := by
  simp only [chunk_document, githubExts]
  generalize file_extension doc.file_path = ext
  by_cases h1 : ext = ".py"
  · simp [h1]
  by_cases h2 : ext = ".js"
  · simp [h2]
  by_cases h3 : ext = ".ts"
  · simp [h3]
  by_cases h4 : ext = ".md"
  · simp [h4]
  by_cases h5 : ext = ".txt"
  · simp [h5]
  by_cases h6 : ext = ".json"
  · simp [h6]
  by_cases h7 : ext = ".yml"
  · simp [h7]
  by_cases h8 : ext = ".yaml"
  · simp [h8]
  by_cases h9 : ext = ".html"
  · simp [h9]
  by_cases h10 : ext = ".css"
  · simp [h10]
  simp [h1, h2, h3, h4, h5, h6, h7, h8, h9, h10]

/-- C4: whenever extraction and chunking produce zero chunks, ingestion
fails with the empty-corpus error and the store is returned unchanged,
so no index (not even a partial one) exists at the session's storage key
if none existed before. -/
theorem C4_empty_corpus_no_partial_index (repo : Repo) (session_id : String)
    (store : ChromaStore) (docs : List Document)
    (hload : gitLoader_load "main" repo = .ok docs)
    (hempty : docs.flatMap chunk_document = []) :
    process_github_repo repo session_id store = (store, .error .emptyCorpus) ∧
    (store.lookup (sessionPersistDir session_id) = none →
      (process_github_repo repo session_id store).1.lookup (sessionPersistDir session_id) =
        none) := by
  have hmain : process_github_repo repo session_id store = (store, .error .emptyCorpus) := by
    simp [process_github_repo, hload, hempty]
  exact ⟨hmain, fun hnone => by rw [hmain]; exact hnone⟩

/-- Closed instantiation of C4 at a repository with only a binary file
and a fresh (empty) store. -/
theorem C4_witness :
    process_github_repo binaryOnlyRepo "sess4" [] = ([], .error .emptyCorpus) ∧
    (([] : ChromaStore).lookup (sessionPersistDir "sess4") = none →
      (process_github_repo binaryOnlyRepo "sess4" []).1.lookup (sessionPersistDir "sess4") =
        none) :=
  C4_empty_corpus_no_partial_index binaryOnlyRepo "sess4" [] [] (by rfl) (by rfl)

/-- C5 counterexample: the Rust file of rustRepo is a non-empty
text-bearing file; extraction does yield one unit for it, but the
extension dispatch produces no chunks for it, the whole ingestion fails
with the empty-corpus error, and on the résumé path even a markdown file
contributes nothing (only .py files are kept there).  This refutes the
claim that every text-bearing file contributes to the index. -/
theorem C5_counterexample :
    rustRepo.files.all (fun f => f.is_text && !(f.content == "")) = true ∧
    gitLoader_load "main" rustRepo = .ok [rustDoc] ∧
    chunk_document rustDoc = [] ∧
    process_github_repo rustRepo "sess5" [] = ([], .error .emptyCorpus) ∧
    clone_and_process_repo mdOnlyRepo = .ok [] :=
  ⟨by decide, rfl, by decide, rfl, rfl⟩

/-- C5 (amended): extraction yields one unit per text-bearing file
tagged with its path, but chunking keeps only the whitelisted
extensions (.py, .js, .ts, .md, .txt, .json, .yml, .yaml, .html, .css)
on the repository-URL path and only .py files on the résumé-link path;
whitelisted non-empty files do contribute chunks carrying their path,
all other files are skipped. -/
theorem C5_extraction_and_dispatch :
    (∀ (repo : Repo) (docs : List Document), gitLoader_load "main" repo = .ok docs →
      docs = (repo.files.filter (fun f => f.is_text)).map
        (fun f => { page_content := f.content, file_path := f.file_path })) ∧
    (∀ doc : Document, chunk_document doc =
      if githubExts.contains (file_extension doc.file_path) then splitDocument doc
      else []) ∧
    (∀ doc : Document, doc.page_content ≠ "" → splitDocument doc ≠ []) ∧
    (∀ doc : Document, ∀ c ∈ splitDocument doc, c.file_path = doc.file_path) ∧
    (∀ (repo : Repo) (docs : List Document), gitLoader_load "main" repo = .ok docs →
      clone_and_process_repo repo =
        .ok (docs.flatMap (fun doc =>
          if strEndsWith doc.file_path ".py" then splitDocument doc else []))) := by
  refine ⟨?_, chunk_document_eq, splitDocument_ne_nil, splitDocument_provenance, ?_⟩
  · intro repo docs hload
    simp only [gitLoader_load] at hload
    split at hload
    · exact (Except.ok.injEq _ _).mp hload.symm ▸ rfl
    · exact Except.noConfusion hload
  · intro repo docs hload
    simp [clone_and_process_repo, hload]

/-- Closed instantiation of C5 (amended): the loaded unit of rustRepo,
a non-empty python document splitting into chunks, and the
résumé-path result for pyRepo. -/
theorem C5_witness :
    ([rustDoc] = (rustRepo.files.filter (fun f => f.is_text)).map
      (fun f => { page_content := f.content, file_path := f.file_path })) ∧
    splitDocument pyDoc ≠ [] ∧
    clone_and_process_repo pyRepo =
      .ok (([pyDoc] : List Document).flatMap (fun doc =>
        if strEndsWith doc.file_path ".py" then splitDocument doc else [])) :=
  ⟨C5_extraction_and_dispatch.1 rustRepo [rustDoc] rfl,
   C5_extraction_and_dispatch.2.2.1 pyDoc (by decide),
   C5_extraction_and_dispatch.2.2.2.2 pyRepo [pyDoc] rfl⟩

/-- C10: both ingestion paths clone exclusively the branch literally
named main; a repository without such a branch fails on both paths,
whatever (processable) files it contains, and the store is unchanged. -/
theorem C10_clone_hardcoded_main_branch (repo : Repo) (session_id : String)
    (store : ChromaStore) (h : repo.branches.contains "main" = false) :
    process_github_repo repo session_id store = (store, .error .cloneFailed) ∧
    clone_and_process_repo repo = .error .cloneFailed := by
  have h2 : "main" ∉ repo.branches := by simpa using h
  constructor <;> simp [process_github_repo, clone_and_process_repo, gitLoader_load, h2]

/-- Closed instantiation of C10 at a master-only repository that does
contain a processable python file. -/
theorem C10_witness :
    masterOnlyRepo.branches.contains "main" = false ∧
    masterOnlyRepo.files.all
      (fun f => f.is_text && githubExts.contains (file_extension f.file_path)) = true ∧
    process_github_repo masterOnlyRepo "sess10" [] = ([], .error .cloneFailed) ∧
    clone_and_process_repo masterOnlyRepo = .error .cloneFailed :=
  ⟨by decide, by decide,
   (C10_clone_hardcoded_main_branch masterOnlyRepo "sess10" [] (by decide)).1,
   (C10_clone_hardcoded_main_branch masterOnlyRepo "sess10" [] (by decide)).2⟩

/-! ### C6 to C9: index lifecycle and chat endpoint -/

theorem lookup_delete_index_none (store : ChromaStore) (path : String) :
    (delete_index store path).lookup path = none := by
  induction store with
  | nil => rfl
  | cons entry rest ih =>
    rcases entry with ⟨k, v⟩
    by_cases h : k = path
    · simpa [delete_index, List.filter_cons, h] using ih
    · have hf : (path == k) = false := by
        simp only [beq_eq_false_iff_ne, ne_eq]
        exact fun hh => h hh.symm
      simpa [delete_index, List.filter_cons, h, List.lookup, hf] using ih

/-- C6: opening a session whose storage location holds no persisted
index fails with the session-not-found error, and in particular opening
right after deleting the session's index always fails that way. -/
theorem C6_open_missing_or_deleted_session :
    (∀ (store : ChromaStore) (session_id : String),
      store.lookup (sessionPersistDir session_id) = none →
      get_retriever_for_session store session_id = .error .sessionNotFound) ∧
    (∀ (store : ChromaStore) (session_id : String),
      get_retriever_for_session (delete_index store (sessionPersistDir session_id))
        session_id = .error .sessionNotFound) := by
  constructor
  · intro store sid h
    simp [get_retriever_for_session, h]
  · intro store sid
    simp [get_retriever_for_session, lookup_delete_index_none]

/-- Closed instantiation of C6: an empty store, and deletion of the one
persisted index of store6. -/
theorem C6_witness :
    get_retriever_for_session [] "nosuch" = .error .sessionNotFound ∧
    get_retriever_for_session (delete_index store6 (sessionPersistDir "s6")) "s6" =
      .error .sessionNotFound :=
  ⟨C6_open_missing_or_deleted_session.1 [] "nosuch" rfl,
   C6_open_missing_or_deleted_session.2 store6 "s6"⟩

/-- C7: under the fixed 60-unit call budget, a failing chain call makes
chat_endpoint surface the failure and leave the durable message table
unchanged; a successful call commits exactly the one new turn, after the
answer exists. -/
theorem C7_generation_failure_no_partial_turn
    (chain : List Chunk → List MemMsg → String → Except AppError String)
    (store : ChromaStore) (sessions : List ChatSessionRow)
    (messages : List ChatMessageRow) (uid : Nat) (sid msg : String)
    (srow : ChatSessionRow) (retriever : List Chunk)
    (hfind : sessions.find? (fun s => s.id == sid) = some srow)
    (hown : srow.user_id = uid)
    (hretr : get_retriever_for_session store sid = .ok retriever) :
    request_timeout = 60 ∧
    (chain retriever (reconstructMemory messages sid) msg = .error .generationFailed →
      chat_endpoint chain store sessions messages uid sid msg =
        (.error { status := 500, detail := "Error during chat: GenerationFailed" },
         messages)) ∧
    (∀ answer, chain retriever (reconstructMemory messages sid) msg = .ok answer →
      chat_endpoint chain store sessions messages uid sid msg =
        (.ok answer,
         messages ++ [{ session_id := sid, user_message := msg,
                        ai_response := answer }])) := by
  refine ⟨rfl, ?_, ?_⟩
  · intro hfail
    simp [chat_endpoint, hfind, hown, hretr, hfail, AppError.describe]
  · intro answer hok
    simp [chat_endpoint, hfind, hown, hretr, hok]

/-- Closed instantiation of C7: a failing chain commits nothing, a
successful chain commits exactly one turn. -/
theorem C7_witness :
    chat_endpoint failChain store7 sessions7 [] 42 "s7" "hi" =
      (.error { status := 500, detail := "Error during chat: GenerationFailed" }, []) ∧
    chat_endpoint okChain store7 sessions7 [] 42 "s7" "hi" =
      (.ok "ans", [{ session_id := "s7", user_message := "hi", ai_response := "ans" }]) :=
  ⟨(C7_generation_failure_no_partial_turn failChain store7 sessions7 [] 42 "s7" "hi"
      { id := "s7", user_id := 42 } [sampleChunk] rfl rfl rfl).2.1 rfl,
   (C7_generation_failure_no_partial_turn okChain store7 sessions7 [] 42 "s7" "hi"
      { id := "s7", user_id := 42 } [sampleChunk] rfl rfl rfl).2.2 "ans" rfl⟩

/-- C8: memory is rebuilt on every request by replaying all persisted
turns of the session in creation order; it depends on nothing but those
turns, and the chain is invoked on exactly that reconstruction, so two
answer requests over the same persisted history see identical memory. -/
theorem C8_memory_reconstruction_idempotent :
    (∀ (messages : List ChatMessageRow) (session_id : String),
      reconstructMemory messages session_id =
        (messages.filter (fun m => m.session_id == session_id)).flatMap
          (fun m => [MemMsg.human m.user_message, MemMsg.ai m.ai_response])) ∧
    (∀ (m1 m2 : List ChatMessageRow) (session_id : String),
      m1.filter (fun m => m.session_id == session_id) =
        m2.filter (fun m => m.session_id == session_id) →
      reconstructMemory m1 session_id = reconstructMemory m2 session_id) ∧
    (∀ (chain1 chain2 : List Chunk → List MemMsg → String → Except AppError String)
        (store : ChromaStore) (sessions : List ChatSessionRow)
        (messages : List ChatMessageRow) (uid : Nat) (sid msg : String),
      (∀ retriever, chain1 retriever (reconstructMemory messages sid) msg =
          chain2 retriever (reconstructMemory messages sid) msg) →
      chat_endpoint chain1 store sessions messages uid sid msg =
        chat_endpoint chain2 store sessions messages uid sid msg) := by
  refine ⟨fun _ _ => rfl, ?_, ?_⟩
  · intro m1 m2 sid h
    simp only [reconstructMemory, h]
  · intro chain1 chain2 store sessions messages uid sid msg hagree
    rcases hfind : sessions.find? (fun srow => srow.id == sid) with _ | srow
    · simp [chat_endpoint, hfind]
    · rcases eq_or_ne srow.user_id uid with he | he
      · rcases hr : get_retriever_for_session store sid with e | retriever
        · simp [chat_endpoint, hfind, he, hr]
        · simp [chat_endpoint, hfind, he, hr, hagree]
      · simp [chat_endpoint, hfind, he]

/-- Closed instantiation of C8: a probing chain and a constant chain
agree on the (empty) reconstructed memory of session s7, hence the
endpoint results coincide; and rows of other sessions do not change the
reconstruction. -/
theorem C8_witness :
    chat_endpoint memProbeChain store7 sessions7 [] 42 "s7" "hi" =
      chat_endpoint okChain store7 sessions7 [] 42 "s7" "hi" ∧
    reconstructMemory otherSessionMessages "s7" = reconstructMemory [] "s7" :=
  ⟨C8_memory_reconstruction_idempotent.2.2 memProbeChain okChain store7 sessions7 [] 42
      "s7" "hi" (fun _ => rfl),
   C8_memory_reconstruction_idempotent.2.1 otherSessionMessages [] "s7" rfl⟩

/-- C9: a request naming a nonexistent session and a request naming an
existing session owned by another user produce the same 404 outcome with
the same detail string, on the chat endpoint and on the interview
endpoints alike, so the caller cannot tell the two apart. -/
theorem C9_not_found_indistinguishable
    (chain : List Chunk → List MemMsg → String → Except AppError String)
    (store : ChromaStore) (sessions : List ChatSessionRow)
    (messages : List ChatMessageRow) (uid : Nat) (sid_missing sid_other msg : String)
    (other_row : ChatSessionRow)
    (hmissing : sessions.find? (fun s => s.id == sid_missing) = none)
    (hother : sessions.find? (fun s => s.id == sid_other) = some other_row)
    (hne : other_row.user_id ≠ uid) :
    chat_endpoint chain store sessions messages uid sid_missing msg =
      (.error { status := 404, detail := chatNotFoundDetail }, messages) ∧
    chat_endpoint chain store sessions messages uid sid_other msg =
      (.error { status := 404, detail := chatNotFoundDetail }, messages) ∧
    chat_endpoint chain store sessions messages uid sid_missing msg =
      chat_endpoint chain store sessions messages uid sid_other msg ∧
    (∀ (active : List (String × SessionData)) (isid_missing isid_other : String)
        (sd : SessionData),
      active.lookup isid_missing = none →
      active.lookup isid_other = some sd →
      strStartsWith isid_other (toString uid ++ "_") = false →
      interview_session_auth active uid isid_missing =
          .error { status := 404, detail := interviewNotFoundDetail } ∧
        interview_session_auth active uid isid_other =
          .error { status := 404, detail := interviewNotFoundDetail }) := by
  have h1 : chat_endpoint chain store sessions messages uid sid_missing msg =
      (.error { status := 404, detail := chatNotFoundDetail }, messages) := by
    simp [chat_endpoint, hmissing]
  have h2 : chat_endpoint chain store sessions messages uid sid_other msg =
      (.error { status := 404, detail := chatNotFoundDetail }, messages) := by
    simp [chat_endpoint, hother, hne]
  refine ⟨h1, h2, h1.trans h2.symm, ?_⟩
  intro active im io sd hm ho hpre
  constructor
  · simp [interview_session_auth, hm]
  · simp [interview_session_auth, ho, hpre]

/-- Closed instantiation of C9 at user 42: an unknown session id and the
session of user 7 yield identical 404 outcomes, on chat and on the
interview authorization. -/
theorem C9_witness :
    chat_endpoint okChain [] sessions9 [] 42 "nosuch" "hi" =
      (.error { status := 404, detail := chatNotFoundDetail }, []) ∧
    chat_endpoint okChain [] sessions9 [] 42 "other" "hi" =
      (.error { status := 404, detail := chatNotFoundDetail }, []) ∧
    chat_endpoint okChain [] sessions9 [] 42 "nosuch" "hi" =
      chat_endpoint okChain [] sessions9 [] 42 "other" "hi" ∧
    (interview_session_auth active9 42 "unknown" =
        .error { status := 404, detail := interviewNotFoundDetail } ∧
      interview_session_auth active9 42 "7_20240101" =
        .error { status := 404, detail := interviewNotFoundDetail }) := by
  have h := C9_not_found_indistinguishable okChain [] sessions9 [] 42 "nosuch" "other"
    "hi" { id := "other", user_id := 7 } rfl rfl (by decide)
  exact ⟨h.1, h.2.1, h.2.2.1,
    h.2.2.2 active9 "unknown" "7_20240101" freshSessionData rfl rfl (by decide)⟩

end Spec2Proof
